import Mathlib

/-!
Verification development for the x402 Solana payment client
(`src/app/utils/solana-x402-client.ts`).

The TypeScript source is shallowly embedded below:

* browser / JS primitives the code relies on (`parseInt`,
  `String.prototype.includes`, `btoa` / `atob`, `JSON.stringify` /
  `JSON.parse`) are modelled as executable Lean functions;
* the chain SDK boundary (`Connection`, `getAssociatedTokenAddress`,
  message serialization) is modelled as an explicit environment record of
  opaque-but-executable functions supplied by the caller;
* the axios response interceptor installed by `createSolanaX402Client` is
  modelled as a fuel-indexed request loop: the real interceptor re-enters
  itself on every 402 (the retry goes through the same intercepted
  client), so its recursion is not structurally terminating and fuel
  makes the possible divergence observable.

Numbers are modelled as exact integers (`Nat`/`Int`): IEEE-754 rounding of
JS numbers above 2^53 is out of scope, as is the float part of JSON
numbers.  `atob`/`btoa` are modelled as canonical RFC 4648 base64 on byte
lists.
-/

/-! ### JS primitives -/

/-- One JS `number` as produced by `parseInt`: either `NaN` or an exact
integer (float rounding not modelled). -/
inductive JsNumber where
  | nan
  | int (n : Int)
deriving DecidableEq, Repr

/-- Whitespace recognised by `parseInt`'s leading trim (common ASCII ws). -/
def isWsChar (c : Char) : Bool :=
  decide (c.toNat = 32 ∨ c.toNat = 9 ∨ c.toNat = 10 ∨ c.toNat = 13 ∨
    c.toNat = 12 ∨ c.toNat = 11)

/-- ASCII decimal digit. -/
def isDigitChar (c : Char) : Bool :=
  decide (48 ≤ c.toNat ∧ c.toNat ≤ 57)

/-- ASCII hex digit. -/
def isHexDigitChar (c : Char) : Bool :=
  decide ((48 ≤ c.toNat ∧ c.toNat ≤ 57) ∨ (97 ≤ c.toNat ∧ c.toNat ≤ 102) ∨
    (65 ≤ c.toNat ∧ c.toNat ≤ 70))

/-- Split off the longest prefix of decimal digits. -/
def takeDigits : List Char → (List Char × List Char)
  | [] => ([], [])
  | c :: t =>
    if isDigitChar c then
      let (ds, r) := takeDigits t
      (c :: ds, r)
    else ([], c :: t)

/-- Split off the longest prefix of hex digits. -/
def takeHexDigits : List Char → (List Char × List Char)
  | [] => ([], [])
  | c :: t =>
    if isHexDigitChar c then
      let (ds, r) := takeHexDigits t
      (c :: ds, r)
    else ([], c :: t)

/-- Numeric value of one hex digit (0 for non-digits). -/
def hexDigitVal (c : Char) : Nat :=
  if 48 ≤ c.toNat ∧ c.toNat ≤ 57 then c.toNat - 48
  else if 97 ≤ c.toNat ∧ c.toNat ≤ 102 then c.toNat - 87
  else if 65 ≤ c.toNat ∧ c.toNat ≤ 70 then c.toNat - 55
  else 0

/-- Value of a list of decimal digit characters. -/
def digitsVal (l : List Char) : Nat :=
  l.foldl (fun acc c => acc * 10 + (c.toNat - 48)) 0

/-- Value of a list of hex digit characters. -/
def hexDigitsVal (l : List Char) : Nat :=
  l.foldl (fun acc c => acc * 16 + hexDigitVal c) 0

/-- Body of `parseInt` after sign handling: radix detection (`0x`/`0X`
prefix means hex, otherwise decimal), then longest digit prefix; `NaN`
when no digit follows. -/
def parseIntBody (sign : Int) (l : List Char) : JsNumber :=
  let isHex : Bool :=
    match l with
    | a :: b :: _ => a == '0' && (b == 'x' || b == 'X')
    | _ => false
  if isHex then
    match l with
    | _ :: _ :: r =>
      let (hs, _) := takeHexDigits r
      if hs = [] then .nan else .int (sign * (hexDigitsVal hs : Int))
    | _ => .nan
  else
    let (ds, _) := takeDigits l
    if ds = [] then .nan else .int (sign * (digitsVal ds : Int))

/-- JS `parseInt(s)` (radix auto-detected, exact-integer model). -/
def jsParseInt (s : String) : JsNumber :=
  let l := s.toList.dropWhile isWsChar
  match l with
  | [] => .nan
  | c :: r =>
    if c = '-' then parseIntBody (-1) r
    else if c = '+' then parseIntBody 1 r
    else parseIntBody 1 (c :: r)

/-- Does `pat` occur as a prefix of `s`? -/
def isPrefixChars : List Char → List Char → Bool
  | [], _ => true
  | _ :: _, [] => false
  | a :: as_, b :: bs => a == b && isPrefixChars as_ bs

/-- Does `pat` occur somewhere inside `s`? -/
def hasSubstrChars (pat : List Char) : List Char → Bool
  | [] => isPrefixChars pat []
  | c :: t => isPrefixChars pat (c :: t) || hasSubstrChars pat t

/-- JS `s.includes(pat)`. -/
def jsIncludes (s pat : String) : Bool :=
  hasSubstrChars pat.toList s.toList

/-! ### Base64 (`btoa` / `atob`, canonical RFC 4648) -/

/-- The base64 alphabet. -/
def b64Alphabet : List Char :=
  "ABCDEFGHIJKLMNOPQRSTUVWXYZabcdefghijklmnopqrstuvwxyz0123456789+/".toList

/-- Character for a sextet value. -/
def sextetChar (n : Nat) : Char := b64Alphabet.getD n '='

/-- Index search in the alphabet. -/
def alphaFind (c : Char) : List Char → Nat → Option Nat
  | [], _ => none
  | a :: t, i => if a = c then some i else alphaFind c t (i + 1)

/-- Sextet value of a base64 character. -/
def sextetVal (c : Char) : Option Nat := alphaFind c b64Alphabet 0

/-- base64-encode a byte list (callers guarantee bytes < 256). -/
def b64encodeList : List Nat → List Char
  | [] => []
  | [a] => [sextetChar (a / 4), sextetChar ((a % 4) * 16), '=', '=']
  | [a, b] =>
    [sextetChar (a / 4), sextetChar ((a % 4) * 16 + b / 16),
     sextetChar ((b % 16) * 4), '=']
  | a :: b :: c :: rest =>
    sextetChar (a / 4) :: sextetChar ((a % 4) * 16 + b / 16) ::
    sextetChar ((b % 16) * 4 + c / 64) :: sextetChar (c % 64) ::
    b64encodeList rest

/-- base64-decode to a byte list (`none` = `atob` throws). -/
def b64decodeList : List Char → Option (List Nat)
  | [] => some []
  | c1 :: c2 :: c3 :: c4 :: rest =>
    match sextetVal c1, sextetVal c2 with
    | some s1, some s2 =>
      if c3 = '=' then
        if c4 = '=' ∧ rest = [] then some [s1 * 4 + s2 / 16] else none
      else
        match sextetVal c3 with
        | some s3 =>
          if c4 = '=' then
            if rest = [] then
              some [s1 * 4 + s2 / 16, (s2 % 16) * 16 + s3 / 4]
            else none
          else
            match sextetVal c4 with
            | some s4 =>
              (b64decodeList rest).map
                (fun tail => (s1 * 4 + s2 / 16) :: ((s2 % 16) * 16 + s3 / 4) ::
                  ((s3 % 4) * 64 + s4) :: tail)
            | none => none
        | none => none
    | _, _ => none
  | _ => none

theorem sextetVal_sextetChar : ∀ n, n < 64 → sextetVal (sextetChar n) = some n := by
  decide

theorem sextetChar_ne_pad : ∀ n, n < 64 → ¬(sextetChar n = '=') := by
  decide

theorem b64_roundtrip_aux :
    ∀ fuel l, l.length ≤ fuel → (∀ b ∈ l, b < 256) →
      b64decodeList (b64encodeList l) = some l := by
  intro fuel
  induction fuel with
  | zero =>
    intro l hl _
    have : l = [] := List.eq_nil_of_length_eq_zero (Nat.le_zero.mp hl)
    subst this
    rfl
  | succ n ih =>
    intro l hl hb
    rcases l with _ | ⟨a, _ | ⟨b, _ | ⟨c, rest⟩⟩⟩
    · rfl
    · have ha : a < 256 := hb a (by simp)
      have h1 : a / 4 < 64 := by omega
      have h2 : (a % 4) * 16 < 64 := by omega
      simp [b64encodeList, b64decodeList,
        sextetVal_sextetChar _ h1, sextetVal_sextetChar _ h2]
      omega
    · have ha : a < 256 := hb a (by simp)
      have hbb : b < 256 := hb b (by simp)
      have h1 : a / 4 < 64 := by omega
      have h2 : (a % 4) * 16 + b / 16 < 64 := by omega
      have h3 : (b % 16) * 4 < 64 := by omega
      simp [b64encodeList, b64decodeList,
        sextetVal_sextetChar _ h1, sextetVal_sextetChar _ h2,
        sextetVal_sextetChar _ h3, sextetChar_ne_pad _ h3]
      omega
    · have ha : a < 256 := hb a (by simp)
      have hbb : b < 256 := hb b (by simp)
      have hc : c < 256 := hb c (by simp)
      have h1 : a / 4 < 64 := by omega
      have h2 : (a % 4) * 16 + b / 16 < 64 := by omega
      have h3 : (b % 16) * 4 + c / 64 < 64 := by omega
      have h4 : c % 64 < 64 := by omega
      have hrest : b64decodeList (b64encodeList rest) = some rest := by
        apply ih rest
        · simp only [List.length_cons] at hl
          omega
        · intro x hx
          exact hb x (by simp [hx])
      simp [b64encodeList, b64decodeList,
        sextetVal_sextetChar _ h1, sextetVal_sextetChar _ h2,
        sextetVal_sextetChar _ h3, sextetVal_sextetChar _ h4,
        sextetChar_ne_pad _ h3, sextetChar_ne_pad _ h4, hrest]
      omega

/-- Canonical base64 round-trip on byte lists. -/
theorem b64_roundtrip (l : List Nat) (hb : ∀ b ∈ l, b < 256) :
    b64decodeList (b64encodeList l) = some l :=
  b64_roundtrip_aux l.length l (Nat.le_refl _) hb

theorem b64_roundtrip_witness :
    (∀ b ∈ [0, 1, 255], b < 256) ∧
      b64decodeList (b64encodeList [0, 1, 255]) = some [0, 1, 255] :=
  ⟨by decide, b64_roundtrip [0, 1, 255] (by decide)⟩

/-! ### JSON (`JSON.stringify` / `JSON.parse`, integer numbers) -/

/-- JSON values (numbers restricted to integers; the values this client
produces and consumes are integer-valued). -/
inductive Json where
  | str (s : String)
  | num (n : Int)
  | bool (b : Bool)
  | null
  | obj (fields : List (String × Json))
  | arr (elems : List Json)

/-- Hex digit character (lower case), as `JSON.stringify` uses in `\u00XX`. -/
def hexDigitChar (n : Nat) : Char :=
  "0123456789abcdef".toList.getD n '0'

/-- `JSON.stringify` escaping of string contents. -/
def jsonEscape : List Char → List Char
  | [] => []
  | c :: rest =>
    (if c = '"' then ['\\', '"']
     else if c = '\\' then ['\\', '\\']
     else if c = '\n' then ['\\', 'n']
     else if c = '\r' then ['\\', 'r']
     else if c = '\t' then ['\\', 't']
     else if c = '\x08' then ['\\', 'b']
     else if c = '\x0c' then ['\\', 'f']
     else if c.toNat < 32 then
       ['\\', 'u', '0', '0', hexDigitChar (c.toNat / 16), hexDigitChar (c.toNat % 16)]
     else [c]) ++ jsonEscape rest

/-- Un-escape of a single short escape character. -/
def unescapeChar (c : Char) : Option Char :=
  if c = '"' then some '"'
  else if c = '\\' then some '\\'
  else if c = '/' then some '/'
  else if c = 'n' then some '\n'
  else if c = 'r' then some '\r'
  else if c = 't' then some '\t'
  else if c = 'b' then some '\x08'
  else if c = 'f' then some '\x0c'
  else none

/-- Parse the body of a JSON string literal (after the opening quote),
returning content and remainder after the closing quote. -/
def parseStrChars : List Char → Option (List Char × List Char)
  | [] => none
  | c :: rest =>
    if c = '"' then some ([], rest)
    else if c = '\\' then
      match rest with
      | [] => none
      | e :: rest2 =>
        if e = 'u' then
          match rest2 with
          | h1 :: h2 :: h3 :: h4 :: rest3 =>
            if isHexDigitChar h1 && isHexDigitChar h2 && isHexDigitChar h3 &&
                isHexDigitChar h4 then
              match parseStrChars rest3 with
              | some (s, r) =>
                some (Char.ofNat (hexDigitsVal [h1, h2, h3, h4]) :: s, r)
              | none => none
            else none
          | _ => none
        else
          match unescapeChar e with
          | some u =>
            match parseStrChars rest2 with
            | some (s, r) => some (u :: s, r)
            | none => none
          | none => none
    else
      match parseStrChars rest with
      | some (s, r) => some (c :: s, r)
      | none => none

/-- Whitespace skipping in the JSON grammar. -/
def skipJsonWs (l : List Char) : List Char :=
  l.dropWhile (fun c => c == ' ' || c == '\t' || c == '\n' || c == '\r')

/-- Longest decimal digit run as a number; `none` when empty. -/
def parseDigits (l : List Char) : Option (Nat × List Char) :=
  let (ds, r) := takeDigits l
  if ds = [] then none else some (digitsVal ds, r)

mutual

/-- Fueled recursive-descent JSON value parser (fuel bounds nesting; one
unit is consumed per recursive entry). -/
def parseJsonValue : Nat → List Char → Option (Json × List Char)
  | 0, _ => none
  | fuel + 1, l =>
    match skipJsonWs l with
    | [] => none
    | c :: rest =>
      if c = '"' then
        match parseStrChars rest with
        | some (s, r) => some (.str (String.mk s), r)
        | none => none
      else if c = '\x7b' then
        match skipJsonWs rest with
        | '\x7d' :: r => some (.obj [], r)
        | l2 =>
          match parseJsonMembers fuel l2 with
          | some (ms, r) => some (.obj ms, r)
          | none => none
      else if c = '[' then
        match skipJsonWs rest with
        | ']' :: r => some (.arr [], r)
        | l2 =>
          match parseJsonElems fuel l2 with
          | some (es, r) => some (.arr es, r)
          | none => none
      else if c = 't' then
        match rest with
        | 'r' :: 'u' :: 'e' :: r => some (.bool true, r)
        | _ => none
      else if c = 'f' then
        match rest with
        | 'a' :: 'l' :: 's' :: 'e' :: r => some (.bool false, r)
        | _ => none
      else if c = 'n' then
        match rest with
        | 'u' :: 'l' :: 'l' :: r => some (.null, r)
        | _ => none
      else if c = '-' then
        match parseDigits rest with
        | some (m, r) => some (.num (-(m : Int)), r)
        | none => none
      else if isDigitChar c then
        match parseDigits (c :: rest) with
        | some (m, r) => some (.num (m : Int), r)
        | none => none
      else none

/-- Parse one or more `"key": value` members followed by `}`. -/
def parseJsonMembers : Nat → List Char → Option (List (String × Json) × List Char)
  | 0, _ => none
  | fuel + 1, l =>
    match skipJsonWs l with
    | '"' :: rest =>
      match parseStrChars rest with
      | some (k, r1) =>
        match skipJsonWs r1 with
        | ':' :: r2 =>
          match parseJsonValue fuel r2 with
          | some (v, r3) =>
            match skipJsonWs r3 with
            | ',' :: r4 =>
              match parseJsonMembers fuel r4 with
              | some (ms, r) => some ((String.mk k, v) :: ms, r)
              | none => none
            | '\x7d' :: r4 => some ([(String.mk k, v)], r4)
            | _ => none
          | none => none
        | _ => none
      | none => none
    | _ => none

/-- Parse one or more array elements followed by `]`. -/
def parseJsonElems : Nat → List Char → Option (List Json × List Char)
  | 0, _ => none
  | fuel + 1, l =>
    match parseJsonValue fuel l with
    | some (v, r1) =>
      match skipJsonWs r1 with
      | ',' :: r2 =>
        match parseJsonElems fuel r2 with
        | some (es, r) => some (v :: es, r)
        | none => none
      | ']' :: r2 => some ([v], r2)
      | _ => none
    | none => none

end

/-- `JSON.parse` model: parse one value, require only whitespace after. -/
def jsonParse (l : List Char) : Option Json :=
  match parseJsonValue (l.length + 1) l with
  | some (j, r) => if skipJsonWs r = [] then some j else none
  | none => none

/-! ### Data model of the client (`solana-x402-client.ts`) -/

/-- `PaymentRequirements` — one entry of the 402 body's `accepts` list. -/
structure PaymentRequirements where
  scheme : String
  network : String
  maxAmountRequired : String
  resource : String
  description : String
  mimeType : String
  payTo : String
  maxTimeoutSeconds : Nat
  asset : String
  feePayer : Option String
deriving DecidableEq, Repr

/-- `X402Response` — the parsed 402 body. -/
structure X402Response where
  x402Version : Int
  accepts : List PaymentRequirements
deriving DecidableEq, Repr

/-- The 402 response body as the interceptor reads it: either it parses as
an `X402Response`, or it is malformed (not an object carrying `accepts`). -/
inductive RespBody where
  | parsed (r : X402Response)
  | malformed
deriving DecidableEq, Repr

/-- An HTTP response. -/
structure Response where
  status : Nat
  body : RespBody
  headers : List (String × String)
deriving DecidableEq, Repr

/-- An axios request config (only the part the interceptor touches). -/
structure RequestConfig where
  url : String
  headers : List (String × String)
deriving DecidableEq, Repr

/-- JS object-style header assignment: overwrite or append. -/
def setHeader (hs : List (String × String)) (k v : String) : List (String × String) :=
  if hs.any (fun p => p.1 == k) then
    hs.map (fun p => if p.1 == k then (k, v) else p)
  else hs ++ [(k, v)]

/-- A Solana transaction instruction, as built by this client. -/
inductive Instruction where
  | systemTransfer (fromPubkey toPubkey : String) (lamports : JsNumber)
  | createAssociatedTokenAccount (payer ata owner mint : String)
  | splTransfer (source destination owner : String) (amount : JsNumber)
deriving DecidableEq, Repr

/-- A Solana `Transaction` under construction. -/
structure Transaction where
  feePayer : String
  recentBlockhash : String
  lastValidBlockHeight : Nat
  instructions : List Instruction
deriving DecidableEq, Repr

/-- `SolanaSigner` — the wallet boundary.  `signTransaction` returns
`Except Unit` so a declining wallet is an `error`. -/
structure SolanaSigner where
  publicKey : String
  signTransaction : Transaction → Except Unit Transaction

/-- The chain-SDK boundary (`Connection` plus `@solana/spl-token` and
`@solana/web3.js` serialization), modelled as executable functions:
`blockhash`/`lastValidBlockHeight` are `getLatestBlockhash()`,
`getAccountInfo` is account existence, `ataOf mint owner` is
`getAssociatedTokenAddress`, `serializeMessage` is
`compileMessage().serialize()` and `serializeSignedTx` is
`signed.serialize({requireAllSignatures:false,verifySignatures:false})`. -/
structure ConnectionEnv where
  blockhash : String
  lastValidBlockHeight : Nat
  getAccountInfo : String → Bool
  ataOf : String → String → String
  serializeMessage : Transaction → List Nat
  serializeSignedTx : Transaction → List Nat

/-- Failures inside `createSolanaPaymentHeader` (caught by the
interceptor's `try`/`catch` and turned into a rejection). -/
inductive PaymentError where
  | signatureRejected
  | encodingError
deriving DecidableEq, Repr

/-- Failures surfaced by the interceptor to the caller. -/
inductive JsError where
  | httpError (resp : Response)
  | malformedBody
  | noPaymentOptions
  | unsupportedNetwork (network : String)
  | paymentFailed (e : PaymentError)
deriving DecidableEq, Repr

/-! ### Payment construction (`createSolanaPaymentHeader`, lines 137-396) -/

/-- The inline experiment flag at line 177 (shipped value `false`). -/
def USE_EMPTY_TRANSACTION : Bool := false

/-- The inline experiment flag at line 279 (shipped value
`"MESSAGE_ONLY"`). -/
def EXPERIMENTAL_MODE : String := "MESSAGE_ONLY"

/-- Lines 145-256: build the (unsigned) transaction for a requirement —
native `SystemProgram.transfer` when `asset` is `"SOL"` or falsy,
otherwise SPL-token transfer with an ATA-creation instruction prepended
when the recipient's associated token account does not exist. -/
def buildPaymentTransaction (conn : ConnectionEnv) (signerPk : String)
    (paymentReq : PaymentRequirements) : Transaction :=
  let amount := jsParseInt paymentReq.maxAmountRequired
  let base : Transaction :=
    { feePayer := signerPk
      recentBlockhash := conn.blockhash
      lastValidBlockHeight := conn.lastValidBlockHeight
      instructions := [] }
  if paymentReq.asset = "SOL" ∨ paymentReq.asset = "" then
    { base with
        instructions := [.systemTransfer signerPk paymentReq.payTo amount] }
  else if USE_EMPTY_TRANSACTION then base
  else
    let fromTokenAccount := conn.ataOf paymentReq.asset signerPk
    let toTokenAccount := conn.ataOf paymentReq.asset paymentReq.payTo
    let createIxs : List Instruction :=
      if conn.getAccountInfo toTokenAccount then []
      else [.createAssociatedTokenAccount signerPk toTokenAccount
              paymentReq.payTo paymentReq.asset]
    { base with
        instructions := createIxs ++
          [.splTransfer fromTokenAccount toTokenAccount signerPk amount] }

/-- `btoa(String.fromCharCode(...bytes))`: `none` models the
`InvalidCharacterError` throw on a unit above 255. -/
def btoaBytes (bytes : List Nat) : Option String :=
  if bytes.all (fun b => b < 256) then some (String.mk (b64encodeList bytes))
  else none

/-- Lines 346-374: `JSON.stringify` of payload shape 2 (the shipped one):
`\x7b x402Version, scheme, network, payload: \x7b transaction \x7d \x7d`. -/
def envelopeChars (scheme network tx : List Char) : List Char :=
  "\x7b\"x402Version\":1,\"scheme\":\"".toList ++ jsonEscape scheme ++
  "\",\"network\":\"".toList ++ jsonEscape network ++
  "\",\"payload\":\x7b\"transaction\":\"".toList ++ jsonEscape tx ++
  "\"\x7d\x7d".toList

/-- Line 391: `btoa(JSON.stringify(paymentPayload))`. -/
def encodeEnvelope (scheme network b64tx : String) : Option String :=
  let json := envelopeChars scheme.toList network.toList b64tx.toList
  if json.all (fun c => c.toNat < 256) then
    some (String.mk (b64encodeList (json.map Char.toNat)))
  else none

/-- Lines 137-396: `createSolanaPaymentHeader`.  Returns the header value
together with the number of `signer.signTransaction` invocations (0 on
the shipped `MESSAGE_ONLY` path, which base64-encodes the *unsigned*
compiled message; the `EMPTY_TX` and `SIGNED_TX` branches are dead code
under the shipped flag but modelled nonetheless). -/
def createSolanaPaymentHeader (conn : ConnectionEnv) (signer : SolanaSigner)
    (paymentReq : PaymentRequirements) : Except PaymentError (String × Nat) :=
  let transaction := buildPaymentTransaction conn signer.publicKey paymentReq
  let encoded : Except PaymentError (String × Nat) :=
    if EXPERIMENTAL_MODE = "MESSAGE_ONLY" then
      match btoaBytes (conn.serializeMessage transaction) with
      | some b64 => .ok (b64, 0)
      | none => .error .encodingError
    else if EXPERIMENTAL_MODE = "EMPTY_TX" then
      let emptyTx : Transaction :=
        { feePayer := signer.publicKey
          recentBlockhash := conn.blockhash
          lastValidBlockHeight := conn.lastValidBlockHeight
          instructions := [] }
      match signer.signTransaction emptyTx with
      | .error _ => .error .signatureRejected
      | .ok signedTx =>
        match btoaBytes (conn.serializeSignedTx signedTx) with
        | some b64 => .ok (b64, 1)
        | none => .error .encodingError
    else
      match signer.signTransaction transaction with
      | .error _ => .error .signatureRejected
      | .ok signedTx =>
        match btoaBytes (conn.serializeSignedTx signedTx) with
        | some b64 => .ok (b64, 1)
        | none => .error .encodingError
  match encoded with
  | .error e => .error e
  | .ok (base64Transaction, signerCalls) =>
    match encodeEnvelope paymentReq.scheme paymentReq.network base64Transaction with
    | some paymentHeader => .ok (paymentHeader, signerCalls)
    | none => .error .encodingError

/-! ### The interceptor (`createSolanaX402Client`, lines 65-132) -/

/-- Outcome of a call through the intercepted client. -/
inductive RunResult where
  | ok (resp : Response)
  | err (e : JsError)
  | outOfFuel
deriving DecidableEq, Repr

/-- `createSolanaX402Client`: one dispatch through the intercepted axios
client.  Returns the number of network requests issued and the outcome.
The 402 branch re-enters the same client for the retry (`client.request`
at line 116 goes through the same interceptor), which is why the model is
fuel-indexed: the code has no "already retried" guard. -/
def createSolanaX402Client (server : RequestConfig → Response)
    (signer : SolanaSigner) (conn : ConnectionEnv) :
    Nat → RequestConfig → Nat × RunResult
  | 0, _ => (0, .outOfFuel)
  | fuel + 1, cfg =>
    let response := server cfg
    if 200 ≤ response.status ∧ response.status < 300 then
      (1, .ok response)
    else if response.status ≠ 402 then
      (1, .err (.httpError response))
    else
      match response.body with
      | .malformed => (1, .err .malformedBody)
      | .parsed x402Response =>
        match x402Response.accepts.head? with
        | none => (1, .err .noPaymentOptions)
        | some paymentReq =>
          if jsIncludes paymentReq.network "solana" = false then
            (1, .err (.unsupportedNetwork paymentReq.network))
          else
            match createSolanaPaymentHeader conn signer paymentReq with
            | .error e => (1, .err (.paymentFailed e))
            | .ok (paymentHeader, _) =>
              let headers1 := setHeader cfg.headers "X-Payment" paymentHeader
              let headers2 := setHeader headers1 "Access-Control-Expose-Headers"
                "X-Payment-Response"
              let retry := createSolanaX402Client server signer conn fuel
                { cfg with headers := headers2 }
              (retry.1 + 1, retry.2)

/-- Lines 401-409: `decodeSolanaPaymentResponse` — `atob` then
`JSON.parse`, any throw caught and turned into `null` (`none`). -/
def decodeSolanaPaymentResponse (header : String) : Option Json :=
  match b64decodeList header.toList with
  | none => none
  | some bytes => jsonParse (bytes.map Char.ofNat)

/-! ### Supporting lemmas -/

theorem takeDigits_all_digits :
    ∀ l : List Char, (∀ c ∈ l, isDigitChar c = true) → takeDigits l = (l, []) := by
  intro l
  induction l with
  | nil => intro _; rfl
  | cons c t ih =>
    intro h
    have hc : isDigitChar c = true := h c (by simp)
    have ht := ih (fun x hx => h x (by simp [hx]))
    simp [takeDigits, hc, ht]

theorem jsParseInt_digits (s : String) (hne : s.toList ≠ [])
    (hd : ∀ c ∈ s.toList, isDigitChar c = true) :
    jsParseInt s = .int (digitsVal s.toList) := by
  rcases hl : s.toList with _ | ⟨c, t⟩
  · exact absurd hl hne
  have hc : isDigitChar c = true := by
    apply hd
    rw [hl]
    simp
  have htd : ∀ x ∈ t, isDigitChar x = true := by
    intro x hx
    apply hd
    rw [hl]
    simp [hx]
  have hcn : 48 ≤ c.toNat ∧ c.toNat ≤ 57 := by
    simpa [isDigitChar] using hc
  have hws : isWsChar c = false := by
    simp [isWsChar]
    omega
  have hdrop : (c :: t).dropWhile isWsChar = c :: t := by
    simp [List.dropWhile, hws]
  have hminus : ¬(c = '-') := by
    rintro rfl
    simp at hcn
  have hplus : ¬(c = '+') := by
    rintro rfl
    simp at hcn
  have hhex : (match c :: t with
      | a :: b :: _ => a == '0' && (b == 'x' || b == 'X')
      | _ => false) = false := by
    rcases t with _ | ⟨b, t2⟩
    · rfl
    · have hb : isDigitChar b = true := htd b (by simp)
      have hbn : 48 ≤ b.toNat ∧ b.toNat ≤ 57 := by simpa [isDigitChar] using hb
      have hbx : ¬(b = 'x') := by
        rintro rfl
        simp at hbn
      have hbX : ¬(b = 'X') := by
        rintro rfl
        simp at hbn
      simp [hbx, hbX]
  have htake : takeDigits (c :: t) = (c :: t, []) := by
    apply takeDigits_all_digits
    intro x hx
    rcases List.mem_cons.mp hx with rfl | hx2
    · exact hc
    · exact htd x hx2
  simp only [jsParseInt, hl, hdrop]
  rw [if_neg hminus, if_neg hplus]
  simp only [parseIntBody, hhex]
  simp [htake]

theorem jsParseInt_digits_check : jsParseInt "1000" = .int 1000 := by
  decide

theorem parseStrChars_quote (tail : List Char) :
    parseStrChars ('"' :: tail) = some ([], tail) := by
  rw [parseStrChars.eq_def]
  simp

theorem parseStrChars_esc_quote (r : List Char) :
    parseStrChars ('\\' :: '"' :: r) =
      (match parseStrChars r with
       | some (s, t) => some ('"' :: s, t)
       | none => none) := by
  rw [parseStrChars.eq_def]
  simp [unescapeChar]

theorem parseStrChars_esc_backslash (r : List Char) :
    parseStrChars ('\\' :: '\\' :: r) =
      (match parseStrChars r with
       | some (s, t) => some ('\\' :: s, t)
       | none => none) := by
  rw [parseStrChars.eq_def]
  simp [unescapeChar]

theorem parseStrChars_other (c : Char) (r : List Char)
    (h1 : ¬(c = '"')) (h2 : ¬(c = '\\')) :
    parseStrChars (c :: r) =
      (match parseStrChars r with
       | some (s, t) => some (c :: s, t)
       | none => none) := by
  rw [parseStrChars.eq_def]
  simp [if_neg h1, if_neg h2]

theorem parseStrChars_escape :
    ∀ (s tail : List Char), (∀ c ∈ s, 32 ≤ c.toNat) →
      parseStrChars (jsonEscape s ++ '"' :: tail) = some (s, tail) := by
  intro s
  induction s with
  | nil =>
    intro tail _
    simp [jsonEscape, parseStrChars_quote]
  | cons c cs ih =>
    intro tail h
    have hc : 32 ≤ c.toNat := h c (by simp)
    have hcs := ih tail (fun x hx => h x (by simp [hx]))
    by_cases h1 : c = '"'
    · subst h1
      have hesc : jsonEscape ('"' :: cs) = '\\' :: '"' :: jsonEscape cs := by
        simp [jsonEscape]
      rw [hesc]
      simp only [List.cons_append]
      rw [parseStrChars_esc_quote, hcs]
    · by_cases h2 : c = '\\'
      · subst h2
        have hesc : jsonEscape ('\\' :: cs) = '\\' :: '\\' :: jsonEscape cs := by
          simp [jsonEscape]
        rw [hesc]
        simp only [List.cons_append]
        rw [parseStrChars_esc_backslash, hcs]
      · have h3 : ¬(c = '\n') := by rintro rfl; exact absurd hc (by decide)
        have h4 : ¬(c = '\r') := by rintro rfl; exact absurd hc (by decide)
        have h5 : ¬(c = '\t') := by rintro rfl; exact absurd hc (by decide)
        have h6 : ¬(c = '\x08') := by rintro rfl; exact absurd hc (by decide)
        have h7 : ¬(c = '\x0c') := by rintro rfl; exact absurd hc (by decide)
        have h8 : ¬(c.toNat < 32) := by omega
        have hesc : jsonEscape (c :: cs) = c :: jsonEscape cs := by
          simp only [jsonEscape, if_neg h1, if_neg h2, if_neg h3, if_neg h4,
            if_neg h5, if_neg h6, if_neg h7, if_neg h8]
          simp
        rw [hesc]
        simp only [List.cons_append]
        rw [parseStrChars_other c _ h1 h2, hcs]

theorem parseStrChars_lit :
    ∀ (k REST : List Char), (∀ c ∈ k, ¬(c = '"') ∧ ¬(c = '\\')) →
      parseStrChars (k ++ '"' :: REST) = some (k, REST) := by
  intro k
  induction k with
  | nil => intro REST _; simpa using parseStrChars_quote REST
  | cons c t ih =>
    intro REST h
    have hc := h c (by simp)
    simp only [List.cons_append]
    rw [parseStrChars_other c _ hc.1 hc.2, ih REST (fun x hx => h x (by simp [hx]))]

theorem parseJsonValue_str (f : Nat) (REST : List Char) :
    parseJsonValue (f + 1) ('"' :: REST) =
      (match parseStrChars REST with
       | some (s, r) => some (Json.str (String.mk s), r)
       | none => none) := by
  rw [parseJsonValue.eq_def]
  simp [skipJsonWs]

theorem parseJsonValue_obj_at_quote (f : Nat) (REST : List Char) :
    parseJsonValue (f + 1) ('\x7b' :: '"' :: REST) =
      (match parseJsonMembers f ('"' :: REST) with
       | some (ms, r) => some (Json.obj ms, r)
       | none => none) := by
  rw [parseJsonValue.eq_def]
  simp [skipJsonWs]

theorem parseJsonValue_one (f : Nat) (REST : List Char) :
    parseJsonValue (f + 1) ('1' :: ',' :: REST) = some (Json.num 1, ',' :: REST) := by
  rw [parseJsonValue.eq_def]
  simp [skipJsonWs, parseDigits, takeDigits, digitsVal, isDigitChar]

theorem envG4 (f : Nat) (t : List Char) (ht : ∀ c ∈ t, 32 ≤ c.toNat) :
    parseJsonMembers (f + 2)
      ('"' :: 't' :: 'r' :: 'a' :: 'n' :: 's' :: 'a' :: 'c' :: 't' :: 'i' ::
        'o' :: 'n' :: '"' :: ':' :: '"' :: (jsonEscape t ++ ['"', '\x7d', '\x7d'])) =
      some ([("transaction", Json.str (String.mk t))], ['\x7d']) := by
  rw [parseJsonMembers.eq_def]
  have hkey : parseStrChars ('t' :: 'r' :: 'a' :: 'n' :: 's' :: 'a' :: 'c' ::
      't' :: 'i' :: 'o' :: 'n' :: '"' :: ':' :: '"' :: (jsonEscape t ++ ['"', '\x7d', '\x7d'])) =
      some (['t','r','a','n','s','a','c','t','i','o','n'],
        ':' :: '"' :: (jsonEscape t ++ ['"', '\x7d', '\x7d'])) :=
    parseStrChars_lit ['t','r','a','n','s','a','c','t','i','o','n'] _ (by decide)
  have hval : parseJsonValue (f + 1) ('"' :: (jsonEscape t ++ ['"', '\x7d', '\x7d'])) =
      some (Json.str (String.mk t), ['\x7d', '\x7d']) := by
    rw [parseJsonValue_str]
    have he : jsonEscape t ++ ['"', '\x7d', '\x7d'] = jsonEscape t ++ '"' :: ['\x7d', '\x7d'] := rfl
    rw [he, parseStrChars_escape t _ ht]
  simp [skipJsonWs, hkey, hval]

theorem envG3 (f : Nat) (t : List Char) (ht : ∀ c ∈ t, 32 ≤ c.toNat) :
    parseJsonMembers (f + 4)
      ('"' :: 'p' :: 'a' :: 'y' :: 'l' :: 'o' :: 'a' :: 'd' :: '"' :: ':' ::
        '\x7b' :: '"' :: 't' :: 'r' :: 'a' :: 'n' :: 's' :: 'a' :: 'c' :: 't' ::
        'i' :: 'o' :: 'n' :: '"' :: ':' :: '"' :: (jsonEscape t ++ ['"', '\x7d', '\x7d'])) =
      some ([("payload", Json.obj [("transaction", Json.str (String.mk t))])], []) := by
  rw [parseJsonMembers.eq_def]
  have hkey : parseStrChars ('p' :: 'a' :: 'y' :: 'l' :: 'o' :: 'a' :: 'd' :: '"' :: ':' ::
      '\x7b' :: '"' :: 't' :: 'r' :: 'a' :: 'n' :: 's' :: 'a' :: 'c' :: 't' ::
      'i' :: 'o' :: 'n' :: '"' :: ':' :: '"' :: (jsonEscape t ++ ['"', '\x7d', '\x7d'])) =
      some (['p','a','y','l','o','a','d'],
        ':' :: '\x7b' :: '"' :: 't' :: 'r' :: 'a' :: 'n' :: 's' :: 'a' :: 'c' :: 't' ::
        'i' :: 'o' :: 'n' :: '"' :: ':' :: '"' :: (jsonEscape t ++ ['"', '\x7d', '\x7d'])) :=
    parseStrChars_lit ['p','a','y','l','o','a','d'] _ (by decide)
  have hval : parseJsonValue (f + 3)
      ('\x7b' :: '"' :: 't' :: 'r' :: 'a' :: 'n' :: 's' :: 'a' :: 'c' :: 't' ::
        'i' :: 'o' :: 'n' :: '"' :: ':' :: '"' :: (jsonEscape t ++ ['"', '\x7d', '\x7d'])) =
      some (Json.obj [("transaction", Json.str (String.mk t))], ['\x7d']) := by
    rw [parseJsonValue_obj_at_quote, envG4 f t ht]
  simp [skipJsonWs, hkey, hval]

theorem envG2 (f : Nat) (n t : List Char) (hn : ∀ c ∈ n, 32 ≤ c.toNat)
    (ht : ∀ c ∈ t, 32 ≤ c.toNat) :
    parseJsonMembers (f + 5)
      ('"' :: 'n' :: 'e' :: 't' :: 'w' :: 'o' :: 'r' :: 'k' :: '"' :: ':' :: '"' ::
        (jsonEscape n ++ '"' :: ',' ::
          '"' :: 'p' :: 'a' :: 'y' :: 'l' :: 'o' :: 'a' :: 'd' :: '"' :: ':' ::
          '\x7b' :: '"' :: 't' :: 'r' :: 'a' :: 'n' :: 's' :: 'a' :: 'c' :: 't' ::
          'i' :: 'o' :: 'n' :: '"' :: ':' :: '"' :: (jsonEscape t ++ ['"', '\x7d', '\x7d']))) =
      some ([("network", Json.str (String.mk n)),
        ("payload", Json.obj [("transaction", Json.str (String.mk t))])], []) := by
  rw [parseJsonMembers.eq_def]
  have hkey : parseStrChars ('n' :: 'e' :: 't' :: 'w' :: 'o' :: 'r' :: 'k' :: '"' :: ':' :: '"' ::
      (jsonEscape n ++ '"' :: ',' ::
        '"' :: 'p' :: 'a' :: 'y' :: 'l' :: 'o' :: 'a' :: 'd' :: '"' :: ':' ::
        '\x7b' :: '"' :: 't' :: 'r' :: 'a' :: 'n' :: 's' :: 'a' :: 'c' :: 't' ::
        'i' :: 'o' :: 'n' :: '"' :: ':' :: '"' :: (jsonEscape t ++ ['"', '\x7d', '\x7d']))) =
      some (['n','e','t','w','o','r','k'],
        ':' :: '"' ::
        (jsonEscape n ++ '"' :: ',' ::
          '"' :: 'p' :: 'a' :: 'y' :: 'l' :: 'o' :: 'a' :: 'd' :: '"' :: ':' ::
          '\x7b' :: '"' :: 't' :: 'r' :: 'a' :: 'n' :: 's' :: 'a' :: 'c' :: 't' ::
          'i' :: 'o' :: 'n' :: '"' :: ':' :: '"' :: (jsonEscape t ++ ['"', '\x7d', '\x7d']))) :=
    parseStrChars_lit ['n','e','t','w','o','r','k'] _ (by decide)
  have hval : parseJsonValue (f + 4)
      ('"' :: (jsonEscape n ++ '"' :: ',' ::
        '"' :: 'p' :: 'a' :: 'y' :: 'l' :: 'o' :: 'a' :: 'd' :: '"' :: ':' ::
        '\x7b' :: '"' :: 't' :: 'r' :: 'a' :: 'n' :: 's' :: 'a' :: 'c' :: 't' ::
        'i' :: 'o' :: 'n' :: '"' :: ':' :: '"' :: (jsonEscape t ++ ['"', '\x7d', '\x7d']))) =
      some (Json.str (String.mk n),
        ',' :: '"' :: 'p' :: 'a' :: 'y' :: 'l' :: 'o' :: 'a' :: 'd' :: '"' :: ':' ::
        '\x7b' :: '"' :: 't' :: 'r' :: 'a' :: 'n' :: 's' :: 'a' :: 'c' :: 't' ::
        'i' :: 'o' :: 'n' :: '"' :: ':' :: '"' :: (jsonEscape t ++ ['"', '\x7d', '\x7d'])) := by
    rw [parseJsonValue_str, parseStrChars_escape n _ hn]
  simp [skipJsonWs, hkey, hval, envG3 f t ht]

theorem envG1 (f : Nat) (s n t : List Char) (hs : ∀ c ∈ s, 32 ≤ c.toNat)
    (hn : ∀ c ∈ n, 32 ≤ c.toNat) (ht : ∀ c ∈ t, 32 ≤ c.toNat) :
    parseJsonMembers (f + 6)
      ('"' :: 's' :: 'c' :: 'h' :: 'e' :: 'm' :: 'e' :: '"' :: ':' :: '"' ::
        (jsonEscape s ++ '"' :: ',' ::
          '"' :: 'n' :: 'e' :: 't' :: 'w' :: 'o' :: 'r' :: 'k' :: '"' :: ':' :: '"' ::
          (jsonEscape n ++ '"' :: ',' ::
            '"' :: 'p' :: 'a' :: 'y' :: 'l' :: 'o' :: 'a' :: 'd' :: '"' :: ':' ::
            '\x7b' :: '"' :: 't' :: 'r' :: 'a' :: 'n' :: 's' :: 'a' :: 'c' :: 't' ::
            'i' :: 'o' :: 'n' :: '"' :: ':' :: '"' :: (jsonEscape t ++ ['"', '\x7d', '\x7d'])))) =
      some ([("scheme", Json.str (String.mk s)),
        ("network", Json.str (String.mk n)),
        ("payload", Json.obj [("transaction", Json.str (String.mk t))])], []) := by
  rw [parseJsonMembers.eq_def]
  have hkey : parseStrChars ('s' :: 'c' :: 'h' :: 'e' :: 'm' :: 'e' :: '"' :: ':' :: '"' ::
      (jsonEscape s ++ '"' :: ',' ::
        '"' :: 'n' :: 'e' :: 't' :: 'w' :: 'o' :: 'r' :: 'k' :: '"' :: ':' :: '"' ::
        (jsonEscape n ++ '"' :: ',' ::
          '"' :: 'p' :: 'a' :: 'y' :: 'l' :: 'o' :: 'a' :: 'd' :: '"' :: ':' ::
          '\x7b' :: '"' :: 't' :: 'r' :: 'a' :: 'n' :: 's' :: 'a' :: 'c' :: 't' ::
          'i' :: 'o' :: 'n' :: '"' :: ':' :: '"' :: (jsonEscape t ++ ['"', '\x7d', '\x7d'])))) =
      some (['s','c','h','e','m','e'],
        ':' :: '"' ::
        (jsonEscape s ++ '"' :: ',' ::
          '"' :: 'n' :: 'e' :: 't' :: 'w' :: 'o' :: 'r' :: 'k' :: '"' :: ':' :: '"' ::
          (jsonEscape n ++ '"' :: ',' ::
            '"' :: 'p' :: 'a' :: 'y' :: 'l' :: 'o' :: 'a' :: 'd' :: '"' :: ':' ::
            '\x7b' :: '"' :: 't' :: 'r' :: 'a' :: 'n' :: 's' :: 'a' :: 'c' :: 't' ::
            'i' :: 'o' :: 'n' :: '"' :: ':' :: '"' :: (jsonEscape t ++ ['"', '\x7d', '\x7d'])))) :=
    parseStrChars_lit ['s','c','h','e','m','e'] _ (by decide)
  have hval : parseJsonValue (f + 5)
      ('"' :: (jsonEscape s ++ '"' :: ',' ::
        '"' :: 'n' :: 'e' :: 't' :: 'w' :: 'o' :: 'r' :: 'k' :: '"' :: ':' :: '"' ::
        (jsonEscape n ++ '"' :: ',' ::
          '"' :: 'p' :: 'a' :: 'y' :: 'l' :: 'o' :: 'a' :: 'd' :: '"' :: ':' ::
          '\x7b' :: '"' :: 't' :: 'r' :: 'a' :: 'n' :: 's' :: 'a' :: 'c' :: 't' ::
          'i' :: 'o' :: 'n' :: '"' :: ':' :: '"' :: (jsonEscape t ++ ['"', '\x7d', '\x7d'])))) =
      some (Json.str (String.mk s),
        ',' :: '"' :: 'n' :: 'e' :: 't' :: 'w' :: 'o' :: 'r' :: 'k' :: '"' :: ':' :: '"' ::
        (jsonEscape n ++ '"' :: ',' ::
          '"' :: 'p' :: 'a' :: 'y' :: 'l' :: 'o' :: 'a' :: 'd' :: '"' :: ':' ::
          '\x7b' :: '"' :: 't' :: 'r' :: 'a' :: 'n' :: 's' :: 'a' :: 'c' :: 't' ::
          'i' :: 'o' :: 'n' :: '"' :: ':' :: '"' :: (jsonEscape t ++ ['"', '\x7d', '\x7d']))) := by
    rw [parseJsonValue_str, parseStrChars_escape s _ hs]
  simp [skipJsonWs, hkey, hval, envG2 f n t hn ht]

theorem envG0 (f : Nat) (s n t : List Char) (hs : ∀ c ∈ s, 32 ≤ c.toNat)
    (hn : ∀ c ∈ n, 32 ≤ c.toNat) (ht : ∀ c ∈ t, 32 ≤ c.toNat) :
    parseJsonMembers (f + 7)
      ('"' :: 'x' :: '4' :: '0' :: '2' :: 'V' :: 'e' :: 'r' :: 's' :: 'i' :: 'o' :: 'n' ::
        '"' :: ':' :: '1' :: ',' ::
        '"' :: 's' :: 'c' :: 'h' :: 'e' :: 'm' :: 'e' :: '"' :: ':' :: '"' ::
        (jsonEscape s ++ '"' :: ',' ::
          '"' :: 'n' :: 'e' :: 't' :: 'w' :: 'o' :: 'r' :: 'k' :: '"' :: ':' :: '"' ::
          (jsonEscape n ++ '"' :: ',' ::
            '"' :: 'p' :: 'a' :: 'y' :: 'l' :: 'o' :: 'a' :: 'd' :: '"' :: ':' ::
            '\x7b' :: '"' :: 't' :: 'r' :: 'a' :: 'n' :: 's' :: 'a' :: 'c' :: 't' ::
            'i' :: 'o' :: 'n' :: '"' :: ':' :: '"' :: (jsonEscape t ++ ['"', '\x7d', '\x7d'])))) =
      some ([("x402Version", Json.num 1),
        ("scheme", Json.str (String.mk s)),
        ("network", Json.str (String.mk n)),
        ("payload", Json.obj [("transaction", Json.str (String.mk t))])], []) := by
  rw [parseJsonMembers.eq_def]
  have hkey : parseStrChars ('x' :: '4' :: '0' :: '2' :: 'V' :: 'e' :: 'r' :: 's' :: 'i' ::
      'o' :: 'n' :: '"' :: ':' :: '1' :: ',' ::
      '"' :: 's' :: 'c' :: 'h' :: 'e' :: 'm' :: 'e' :: '"' :: ':' :: '"' ::
      (jsonEscape s ++ '"' :: ',' ::
        '"' :: 'n' :: 'e' :: 't' :: 'w' :: 'o' :: 'r' :: 'k' :: '"' :: ':' :: '"' ::
        (jsonEscape n ++ '"' :: ',' ::
          '"' :: 'p' :: 'a' :: 'y' :: 'l' :: 'o' :: 'a' :: 'd' :: '"' :: ':' ::
          '\x7b' :: '"' :: 't' :: 'r' :: 'a' :: 'n' :: 's' :: 'a' :: 'c' :: 't' ::
          'i' :: 'o' :: 'n' :: '"' :: ':' :: '"' :: (jsonEscape t ++ ['"', '\x7d', '\x7d'])))) =
      some (['x','4','0','2','V','e','r','s','i','o','n'],
        ':' :: '1' :: ',' ::
        '"' :: 's' :: 'c' :: 'h' :: 'e' :: 'm' :: 'e' :: '"' :: ':' :: '"' ::
        (jsonEscape s ++ '"' :: ',' ::
          '"' :: 'n' :: 'e' :: 't' :: 'w' :: 'o' :: 'r' :: 'k' :: '"' :: ':' :: '"' ::
          (jsonEscape n ++ '"' :: ',' ::
            '"' :: 'p' :: 'a' :: 'y' :: 'l' :: 'o' :: 'a' :: 'd' :: '"' :: ':' ::
            '\x7b' :: '"' :: 't' :: 'r' :: 'a' :: 'n' :: 's' :: 'a' :: 'c' :: 't' ::
            'i' :: 'o' :: 'n' :: '"' :: ':' :: '"' :: (jsonEscape t ++ ['"', '\x7d', '\x7d'])))) :=
    parseStrChars_lit ['x','4','0','2','V','e','r','s','i','o','n'] _ (by decide)
  simp [skipJsonWs, hkey, parseJsonValue_one, envG1 f s n t hs hn ht]

theorem envelopeChars_eq (s n t : List Char) :
    envelopeChars s n t =
      '\x7b' :: '"' :: 'x' :: '4' :: '0' :: '2' :: 'V' :: 'e' :: 'r' :: 's' :: 'i' :: 'o' :: 'n' ::
        '"' :: ':' :: '1' :: ',' ::
        '"' :: 's' :: 'c' :: 'h' :: 'e' :: 'm' :: 'e' :: '"' :: ':' :: '"' ::
        (jsonEscape s ++ '"' :: ',' ::
          '"' :: 'n' :: 'e' :: 't' :: 'w' :: 'o' :: 'r' :: 'k' :: '"' :: ':' :: '"' ::
          (jsonEscape n ++ '"' :: ',' ::
            '"' :: 'p' :: 'a' :: 'y' :: 'l' :: 'o' :: 'a' :: 'd' :: '"' :: ':' ::
            '\x7b' :: '"' :: 't' :: 'r' :: 'a' :: 'n' :: 's' :: 'a' :: 'c' :: 't' ::
            'i' :: 'o' :: 'n' :: '"' :: ':' :: '"' :: (jsonEscape t ++ ['"', '\x7d', '\x7d']))) := by
  show "\x7b\"x402Version\":1,\"scheme\":\"".toList ++ jsonEscape s ++
      "\",\"network\":\"".toList ++ jsonEscape n ++
      "\",\"payload\":\x7b\"transaction\":\"".toList ++ jsonEscape t ++
      "\"\x7d\x7d".toList = _
  have e1 : "\x7b\"x402Version\":1,\"scheme\":\"".toList =
      ['\x7b','"','x','4','0','2','V','e','r','s','i','o','n','"',':','1',',',
       '"','s','c','h','e','m','e','"',':','"'] := rfl
  have e2 : "\",\"network\":\"".toList =
      ['"',',','"','n','e','t','w','o','r','k','"',':','"'] := rfl
  have e3 : "\",\"payload\":\x7b\"transaction\":\"".toList =
      ['"',',','"','p','a','y','l','o','a','d','"',':','\x7b',
       '"','t','r','a','n','s','a','c','t','i','o','n','"',':','"'] := rfl
  have e4 : "\"\x7d\x7d".toList = ['"','\x7d','\x7d'] := rfl
  rw [e1, e2, e3, e4]
  simp [List.append_assoc]

theorem parseJsonValue_envelope (f : Nat) (s n t : List Char)
    (hs : ∀ c ∈ s, 32 ≤ c.toNat) (hn : ∀ c ∈ n, 32 ≤ c.toNat)
    (ht : ∀ c ∈ t, 32 ≤ c.toNat) :
    parseJsonValue (f + 8) (envelopeChars s n t) =
      some (Json.obj [("x402Version", Json.num 1),
        ("scheme", Json.str (String.mk s)),
        ("network", Json.str (String.mk n)),
        ("payload", Json.obj [("transaction", Json.str (String.mk t))])], []) := by
  rw [envelopeChars_eq]
  rw [parseJsonValue_obj_at_quote]
  rw [envG0 f s n t hs hn ht]

theorem hexDigitChar_lt256 (m : Nat) : (hexDigitChar m).toNat < 256 := by
  rcases Nat.lt_or_ge m 16 with h | h
  · have hall : ∀ k < 16, (hexDigitChar k).toNat < 256 := by decide
    exact hall m h
  · have hd : hexDigitChar m = '0' := by
      unfold hexDigitChar
      rw [List.getD_eq_default]
      exact le_trans (by decide) h
    rw [hd]
    decide

theorem jsonEscape_lt256 :
    ∀ s : List Char, (∀ c ∈ s, c.toNat < 256) →
      (jsonEscape s).all (fun c => c.toNat < 256) = true := by
  intro s
  induction s with
  | nil => intro _; rfl
  | cons c t ih =>
    intro h
    have hc : c.toNat < 256 := h c (by simp)
    have ht := ih (fun x hx => h x (by simp [hx]))
    rw [jsonEscape.eq_def]
    rw [List.all_append, ht, Bool.and_true]
    split_ifs with h1 h2 h3 h4 h5 h6 h7 h8
    all_goals simp_all [hexDigitChar_lt256]

theorem envelopeChars_all_lt256 (s n t : List Char)
    (hs : ∀ c ∈ s, c.toNat < 256) (hn : ∀ c ∈ n, c.toNat < 256)
    (ht : ∀ c ∈ t, c.toNat < 256) :
    (envelopeChars s n t).all (fun c => c.toNat < 256) = true := by
  unfold envelopeChars
  simp only [List.all_append, Bool.and_eq_true]
  refine ⟨⟨⟨⟨⟨⟨?_, ?_⟩, ?_⟩, ?_⟩, ?_⟩, ?_⟩, ?_⟩
  · decide
  · exact jsonEscape_lt256 s hs
  · decide
  · exact jsonEscape_lt256 n hn
  · decide
  · exact jsonEscape_lt256 t ht
  · decide

theorem envelopeChars_length_ge (s n t : List Char) :
    7 ≤ (envelopeChars s n t).length := by
  rw [envelopeChars_eq]
  simp

theorem jsonParse_envelope (s n t : List Char)
    (hs : ∀ c ∈ s, 32 ≤ c.toNat) (hn : ∀ c ∈ n, 32 ≤ c.toNat)
    (ht : ∀ c ∈ t, 32 ≤ c.toNat) :
    jsonParse (envelopeChars s n t) =
      some (Json.obj [("x402Version", Json.num 1),
        ("scheme", Json.str (String.mk s)),
        ("network", Json.str (String.mk n)),
        ("payload", Json.obj [("transaction", Json.str (String.mk t))])]) := by
  have hlen := envelopeChars_length_ge s n t
  unfold jsonParse
  have hfuel : (envelopeChars s n t).length + 1 =
      ((envelopeChars s n t).length - 7) + 8 := by omega
  rw [hfuel, parseJsonValue_envelope _ s n t hs hn ht]
  simp [skipJsonWs]

theorem encodeEnvelope_decode_aux (scheme network tx : String)
    (hs : ∀ c ∈ scheme.toList, 32 ≤ c.toNat ∧ c.toNat < 256)
    (hn : ∀ c ∈ network.toList, 32 ≤ c.toNat ∧ c.toNat < 256)
    (ht : ∀ c ∈ tx.toList, 32 ≤ c.toNat ∧ c.toNat < 256) :
    (encodeEnvelope scheme network tx).bind decodeSolanaPaymentResponse =
      some (Json.obj [("x402Version", Json.num 1),
        ("scheme", Json.str scheme),
        ("network", Json.str network),
        ("payload", Json.obj [("transaction", Json.str tx)])]) := by
  have hall : (envelopeChars scheme.toList network.toList tx.toList).all
      (fun c => c.toNat < 256) = true :=
    envelopeChars_all_lt256 _ _ _ (fun c hc => (hs c hc).2) (fun c hc => (hn c hc).2)
      (fun c hc => (ht c hc).2)
  have hbytes : ∀ b ∈ (envelopeChars scheme.toList network.toList tx.toList).map Char.toNat,
      b < 256 := by
    intro b hb
    rcases List.mem_map.mp hb with ⟨c, hc, rfl⟩
    exact of_decide_eq_true (List.all_eq_true.mp hall c hc)
  unfold encodeEnvelope
  rw [if_pos hall]
  rw [Option.some_bind]
  unfold decodeSolanaPaymentResponse
  have htl : (String.mk (b64encodeList
      ((envelopeChars scheme.toList network.toList tx.toList).map Char.toNat))).toList =
      b64encodeList ((envelopeChars scheme.toList network.toList tx.toList).map Char.toNat) := rfl
  rw [htl, b64_roundtrip _ hbytes]
  have hmap : ((envelopeChars scheme.toList network.toList tx.toList).map Char.toNat).map
      Char.ofNat = envelopeChars scheme.toList network.toList tx.toList := by
    rw [List.map_map]
    have hco : Char.ofNat ∘ Char.toNat = id := funext Char.ofNat_toNat
    rw [hco, List.map_id]
  show jsonParse (((envelopeChars scheme.toList network.toList tx.toList).map
    Char.toNat).map Char.ofNat) = _
  rw [hmap]
  exact jsonParse_envelope scheme.toList network.toList tx.toList
    (fun c hc => (hs c hc).1) (fun c hc => (hn c hc).1) (fun c hc => (ht c hc).1)

/-! ### Concrete fixtures (used by witnesses and counterexamples) -/

/-- A solana-devnet native-SOL requirement (the x402 scenario body). -/
def solReqFix : PaymentRequirements :=
  { scheme := "exact", network := "solana-devnet", maxAmountRequired := "1000"
    resource := "/item3", description := "", mimeType := "application/json"
    payTo := "ADDR", maxTimeoutSeconds := 60, asset := "SOL", feePayer := none }

/-- An EVM requirement (network not containing "solana"). -/
def evmReqFix : PaymentRequirements :=
  { solReqFix with network := "base-sepolia", asset := "" }

/-- A token requirement (asset neither "SOL" nor empty). -/
def tokenReqFix : PaymentRequirements :=
  { solReqFix with asset := "USDCmint" }

/-- A requirement whose amount string is not a valid non-negative integer. -/
def badAmountReqFix : PaymentRequirements :=
  { solReqFix with maxAmountRequired := "12abc" }

/-- A requirement whose amount string has no leading digits at all. -/
def nanAmountReqFix : PaymentRequirements :=
  { solReqFix with maxAmountRequired := "abc" }

/-- A concrete chain environment: recipient token accounts never exist,
message serialization yields the bytes 1,2,3 (base64 "AQID"). -/
def connFix : ConnectionEnv :=
  { blockhash := "BH", lastValidBlockHeight := 100
    getAccountInfo := fun _ => false
    ataOf := fun m o => "ata:" ++ m ++ ":" ++ o
    serializeMessage := fun _ => [1, 2, 3]
    serializeSignedTx := fun _ => [4, 5, 6] }

/-- A wallet that approves every signature request. -/
def signerApproves : SolanaSigner :=
  { publicKey := "PAYER", signTransaction := fun t => .ok t }

/-- A wallet that declines every signature request. -/
def signerDeclines : SolanaSigner :=
  { publicKey := "PAYER", signTransaction := fun _ => .error () }

/-- The initial request config. -/
def cfgFix : RequestConfig := { url := "/item3", headers := [] }

/-- A server that answers every request (with or without `X-Payment`)
with the same well-formed solana-devnet 402. -/
def server402Fix : RequestConfig → Response :=
  fun _ => { status := 402, body := .parsed ⟨1, [solReqFix]⟩, headers := [] }

/-- A server that answers 402 until the request carries `X-Payment`, then 200. -/
def serverPaidFix : RequestConfig → Response :=
  fun cfg =>
    if cfg.headers.any (fun p => p.1 == "X-Payment") then
      { status := 200, body := .malformed, headers := [] }
    else { status := 402, body := .parsed ⟨1, [solReqFix]⟩, headers := [] }

/-- A plain 404 server. -/
def server404Fix : RequestConfig → Response :=
  fun _ => { status := 404, body := .malformed, headers := [] }

/-- A 402 server whose `accepts` lists an EVM entry first and a matching
solana entry second. -/
def serverEvmFirstFix : RequestConfig → Response :=
  fun _ => { status := 402, body := .parsed ⟨1, [evmReqFix, solReqFix]⟩, headers := [] }

/-- A 402 server with a malformed body. -/
def serverMalformedFix : RequestConfig → Response :=
  fun _ => { status := 402, body := .malformed, headers := [] }

/-- A 402 server with an empty `accepts` list. -/
def serverEmptyAcceptsFix : RequestConfig → Response :=
  fun _ => { status := 402, body := .parsed ⟨1, []⟩, headers := [] }

/-- Projection: the signer-invocation count of a successful construction. -/
def okCallCount : Except PaymentError (String × Nat) → Option Nat
  | .ok (_, calls) => some calls
  | .error _ => none

/-! ### Claim theorems -/

/-- Claim C9: for every response with status other than 402 (success or
error), the interceptor returns the response (or rejection) to the caller
unchanged, in a single network request, without invoking the parser or
constructor. -/
theorem non402_passthrough (server : RequestConfig → Response)
    (signer : SolanaSigner) (conn : ConnectionEnv) (fuel : Nat)
    (cfg : RequestConfig) (h : (server cfg).status ≠ 402) :
    createSolanaX402Client server signer conn (fuel + 1) cfg =
      (1, if 200 ≤ (server cfg).status ∧ (server cfg).status < 300
        then .ok (server cfg) else .err (.httpError (server cfg))) := by
  rw [createSolanaX402Client.eq_def]
  by_cases h2 : 200 ≤ (server cfg).status ∧ (server cfg).status < 300
  · simp [h2]
  · simp [h2, h]

theorem non402_passthrough_witness :
    createSolanaX402Client server404Fix signerApproves connFix 5 cfgFix =
      (1, .err (.httpError { status := 404, body := .malformed, headers := [] })) := by
  have h := non402_passthrough server404Fix signerApproves connFix 4 cfgFix (by decide)
  simpa [server404Fix] using h

/-- Claim C8: for every 402 response whose body is malformed or whose
accepts list is empty, the parse step fails (malformed-body or
no-payment-options error) and no payment is attempted: exactly one
network request, zero retries. -/
theorem protocol_error_no_retry (server : RequestConfig → Response)
    (signer : SolanaSigner) (conn : ConnectionEnv) (fuel : Nat)
    (cfg : RequestConfig) (h402 : (server cfg).status = 402)
    (h : (server cfg).body = RespBody.malformed ∨
      ∃ v, (server cfg).body = RespBody.parsed v ∧ v.accepts = []) :
    createSolanaX402Client server signer conn (fuel + 1) cfg =
        (1, .err .malformedBody) ∨
      createSolanaX402Client server signer conn (fuel + 1) cfg =
        (1, .err .noPaymentOptions) := by
  rw [createSolanaX402Client.eq_def]
  have hn2 : ¬(200 ≤ (server cfg).status ∧ (server cfg).status < 300) := by
    omega
  rcases h with hm | ⟨v, hv, hacc⟩
  · left
    simp [hn2, h402, hm]
  · right
    simp [hn2, h402, hv, hacc]

theorem protocol_error_no_retry_witness :
    createSolanaX402Client serverMalformedFix signerApproves connFix 5 cfgFix =
        (1, .err .malformedBody) ∨
      createSolanaX402Client serverMalformedFix signerApproves connFix 5 cfgFix =
        (1, .err .noPaymentOptions) :=
  protocol_error_no_retry serverMalformedFix signerApproves connFix 4 cfgFix rfl
    (Or.inl rfl)

/-- Claim C7: for every token (non-native) requirement whose recipient
associated token account does not exist, the built transaction contains
exactly one account-creation instruction followed by exactly one transfer
instruction, in that order (the missing account is not a hard failure). -/
theorem token_missing_account_two_instructions (conn : ConnectionEnv)
    (pk : String) (req : PaymentRequirements)
    (hAsset : ¬(req.asset = "SOL" ∨ req.asset = ""))
    (hMissing : conn.getAccountInfo (conn.ataOf req.asset req.payTo) = false) :
    (buildPaymentTransaction conn pk req).instructions =
      [.createAssociatedTokenAccount pk (conn.ataOf req.asset req.payTo)
        req.payTo req.asset,
       .splTransfer (conn.ataOf req.asset pk) (conn.ataOf req.asset req.payTo)
        pk (jsParseInt req.maxAmountRequired)] := by
  simp only [buildPaymentTransaction]
  rw [if_neg hAsset]
  simp [USE_EMPTY_TRANSACTION, hMissing]

theorem token_missing_account_two_instructions_witness :
    (buildPaymentTransaction connFix "PAYER" tokenReqFix).instructions =
      [.createAssociatedTokenAccount "PAYER" "ata:USDCmint:ADDR" "ADDR" "USDCmint",
       .splTransfer "ata:USDCmint:PAYER" "ata:USDCmint:ADDR" "PAYER"
        (JsNumber.int 1000)] := by
  have h := token_missing_account_two_instructions connFix "PAYER" tokenReqFix
    (by decide) rfl
  exact h

/-- Claim C4: for every native-currency requirement whose
`maxAmountRequired` is the decimal string of an amount `A`, the built
transfer instruction's lamports amount is exactly `A`. -/
theorem native_transfer_amount_exact (conn : ConnectionEnv) (pk : String)
    (req : PaymentRequirements) (A : Nat)
    (hAsset : req.asset = "SOL" ∨ req.asset = "")
    (hne : req.maxAmountRequired.toList ≠ [])
    (hd : ∀ c ∈ req.maxAmountRequired.toList, isDigitChar c = true)
    (hval : digitsVal req.maxAmountRequired.toList = A) :
    (buildPaymentTransaction conn pk req).instructions =
      [.systemTransfer pk req.payTo (.int (A : Int))] := by
  simp only [buildPaymentTransaction]
  rw [if_pos hAsset]
  rw [jsParseInt_digits _ hne hd, hval]

theorem native_transfer_amount_exact_witness :
    (buildPaymentTransaction connFix "PAYER" solReqFix).instructions =
      [.systemTransfer "PAYER" "ADDR" (JsNumber.int 1000)] := by
  have h := native_transfer_amount_exact connFix "PAYER" solReqFix 1000
    (Or.inl rfl) (by decide) (by decide) (by decide)
  exact h

/-- Claim C5 counterexample: `maxAmountRequired = "12abc"` is not a valid
non-negative integer, yet the constructor does not fail with any
invalid-amount error: it builds a transfer of 12 lamports and the whole
header construction succeeds. -/
theorem invalid_amount_not_rejected_cex :
    (buildPaymentTransaction connFix "PAYER" badAmountReqFix).instructions =
        [.systemTransfer "PAYER" "ADDR" (JsNumber.int 12)] ∧
      okCallCount (createSolanaPaymentHeader connFix signerApproves badAmountReqFix) =
        some 0 :=
  ⟨rfl, rfl⟩

/-- Claim C5 (amended): the constructor performs no amount validation at
all — for every native requirement it builds the transfer with whatever
`parseInt` returns on `maxAmountRequired` (a truncated prefix value, or
`NaN`), and construction proceeds. -/
theorem amount_used_unvalidated (conn : ConnectionEnv) (pk : String)
    (req : PaymentRequirements) (hAsset : req.asset = "SOL" ∨ req.asset = "") :
    (buildPaymentTransaction conn pk req).instructions =
      [.systemTransfer pk req.payTo (jsParseInt req.maxAmountRequired)] := by
  simp only [buildPaymentTransaction]
  rw [if_pos hAsset]

theorem amount_used_unvalidated_witness :
    (buildPaymentTransaction connFix "PAYER" nanAmountReqFix).instructions =
      [.systemTransfer "PAYER" "ADDR" JsNumber.nan] := by
  have h := amount_used_unvalidated connFix "PAYER" nanAmountReqFix (Or.inl rfl)
  have h2 : jsParseInt "abc" = JsNumber.nan := by decide
  simpa [nanAmountReqFix, solReqFix, h2] using h

/-- Claim C3 counterexample: with a wallet that declines every signature
request, `createSolanaPaymentHeader` nonetheless succeeds, and the signer
was invoked zero times — the artifact is serialized unsigned, so no
`SignatureRejected` failure can arise. -/
theorem construction_succeeds_with_declining_wallet_cex :
    okCallCount (createSolanaPaymentHeader connFix signerDeclines solReqFix) =
      some 0 :=
  rfl

/-- Claim C3 (amended): under the shipped `MESSAGE_ONLY` flag the
constructor base64-encodes the unsigned compiled message and never
invokes the wallet: the result is independent of the signer (beyond its
public key) and every successful construction reports zero
`signTransaction` calls. -/
theorem message_only_never_invokes_signer (conn : ConnectionEnv)
    (req : PaymentRequirements) (s1 s2 : SolanaSigner)
    (hpk : s1.publicKey = s2.publicKey) :
    createSolanaPaymentHeader conn s1 req = createSolanaPaymentHeader conn s2 req ∧
      ∀ hd calls, createSolanaPaymentHeader conn s1 req = .ok (hd, calls) →
        calls = 0 := by
  constructor
  · simp only [createSolanaPaymentHeader, EXPERIMENTAL_MODE]
    rw [hpk]
    simp
  · intro hd calls h
    simp only [createSolanaPaymentHeader, EXPERIMENTAL_MODE, if_true] at h
    rcases hb : btoaBytes (conn.serializeMessage
        (buildPaymentTransaction conn s1.publicKey req)) with _ | b64
    · simp [hb] at h
    · simp only [hb] at h
      rcases he : encodeEnvelope req.scheme req.network b64 with _ | hdr
      · simp [he] at h
      · simp only [he] at h
        cases h
        rfl

theorem message_only_never_invokes_signer_witness :
    createSolanaPaymentHeader connFix signerApproves solReqFix =
      createSolanaPaymentHeader connFix signerDeclines solReqFix :=
  (message_only_never_invokes_signer connFix solReqFix signerApproves
    signerDeclines rfl).1

/-- Claim C2 counterexample: a 402 whose `accepts` lists a base-sepolia
entry first and a matching solana-devnet entry second is rejected with an
unsupported-network error naming "base-sepolia" after a single request —
the matching entry is never selected. -/
theorem selection_ignores_matching_entry_cex :
    createSolanaX402Client serverEvmFirstFix signerApproves connFix 5 cfgFix =
      (1, .err (.unsupportedNetwork "base-sepolia")) :=
  rfl

/-- Claim C2 (amended): the client always selects `accepts[0]`,
unconditionally; whenever that first entry's network does not contain
"solana", the call fails with an unsupported-network error surfacing that
first entry's network name, after exactly one request (zero retries) —
even if a later entry matches. -/
theorem selection_takes_first_entry (server : RequestConfig → Response)
    (signer : SolanaSigner) (conn : ConnectionEnv) (fuel : Nat)
    (cfg : RequestConfig) (v : X402Response) (req : PaymentRequirements)
    (rest : List PaymentRequirements)
    (hst : (server cfg).status = 402)
    (hbody : (server cfg).body = RespBody.parsed v)
    (hacc : v.accepts = req :: rest)
    (hnet : jsIncludes req.network "solana" = false) :
    createSolanaX402Client server signer conn (fuel + 1) cfg =
      (1, .err (.unsupportedNetwork req.network)) := by
  rw [createSolanaX402Client.eq_def]
  have hn2 : ¬(200 ≤ (server cfg).status ∧ (server cfg).status < 300) := by
    omega
  simp [hn2, hst, hbody, hacc, hnet]

theorem selection_takes_first_entry_witness :
    createSolanaX402Client serverEvmFirstFix signerDeclines connFix 3 cfgFix =
      (1, .err (.unsupportedNetwork "base-sepolia")) := by
  have h := selection_takes_first_entry serverEvmFirstFix signerDeclines connFix 2
    cfgFix ⟨1, [evmReqFix, solReqFix]⟩ evmReqFix [solReqFix] rfl rfl rfl (by decide)
  exact h

/-- Claim C1 (code bug): against a server that answers every request —
including retried ones already carrying `X-Payment` — with the same
well-formed solana 402, the interceptor issues one network request per
unit of fuel and never terminates: the retry at line 116 goes through the
same intercepted client and there is no "already retried" guard, so a
second 402 starts a new payment cycle instead of being terminal, and the
request count is unbounded instead of at most two. -/
theorem interceptor_loops_on_persistent_402 :
    ∀ fuel cfg,
      (createSolanaX402Client server402Fix signerApproves connFix fuel cfg).1 =
          fuel ∧
        (createSolanaX402Client server402Fix signerApproves connFix fuel cfg).2 =
          .outOfFuel := by
  intro fuel
  induction fuel with
  | zero => intro cfg; exact ⟨rfl, rfl⟩
  | succ f ih =>
    intro cfg
    have h0 : okCallCount (createSolanaPaymentHeader connFix signerApproves solReqFix) =
        some 0 := rfl
    obtain ⟨hdr, calls, hok⟩ : ∃ hdr calls,
        createSolanaPaymentHeader connFix signerApproves solReqFix =
          .ok (hdr, calls) := by
      rcases h : createSolanaPaymentHeader connFix signerApproves solReqFix with e | v
      · rw [h] at h0
        simp [okCallCount] at h0
      · obtain ⟨hdr, calls⟩ := v
        exact ⟨hdr, calls, rfl⟩
    rw [createSolanaX402Client.eq_def]
    have hnet : jsIncludes solReqFix.network "solana" = true := by decide
    simp [server402Fix, hnet, hok, ih]

/-- Claim C6 counterexample: for the solana requirement with
`maxAmountRequired = "1000"`, decoding the produced `X-Payment` header
yields an object with exactly the fields `x402Version`, `scheme`,
`network` and `payload.transaction` — no amount field exists in the
envelope, so the requirement's amount cannot be recovered by decoding. -/
theorem roundtrip_lacks_amount_cex :
    solReqFix.maxAmountRequired = "1000" ∧
      (match createSolanaPaymentHeader connFix signerApproves solReqFix with
       | .ok (h, _) => decodeSolanaPaymentResponse h
       | .error _ => none) =
        some (Json.obj [("x402Version", Json.num 1),
          ("scheme", Json.str "exact"),
          ("network", Json.str "solana-devnet"),
          ("payload", Json.obj [("transaction", Json.str "AQID")])]) :=
  ⟨rfl, rfl⟩

/-- Claim C6 (amended): for every envelope input (scheme, network and
base64 transaction strings of printable characters below 256), encoding
the payment envelope into the header value and decoding it back yields
the requirement's `scheme` and `network` (and the transaction payload and
protocol version) unchanged; the envelope carries no amount field. -/
theorem envelope_roundtrip_scheme_network (scheme network tx : String)
    (hs : ∀ c ∈ scheme.toList, 32 ≤ c.toNat ∧ c.toNat < 256)
    (hn : ∀ c ∈ network.toList, 32 ≤ c.toNat ∧ c.toNat < 256)
    (ht : ∀ c ∈ tx.toList, 32 ≤ c.toNat ∧ c.toNat < 256) :
    (encodeEnvelope scheme network tx).bind decodeSolanaPaymentResponse =
      some (Json.obj [("x402Version", Json.num 1),
        ("scheme", Json.str scheme),
        ("network", Json.str network),
        ("payload", Json.obj [("transaction", Json.str tx)])]) :=
  encodeEnvelope_decode_aux scheme network tx hs hn ht

theorem envelope_roundtrip_scheme_network_witness :
    (encodeEnvelope "exact" "solana-devnet" "AQID").bind
        decodeSolanaPaymentResponse =
      some (Json.obj [("x402Version", Json.num 1),
        ("scheme", Json.str "exact"),
        ("network", Json.str "solana-devnet"),
        ("payload", Json.obj [("transaction", Json.str "AQID")])]) :=
  envelope_roundtrip_scheme_network "exact" "solana-devnet" "AQID"
    (by decide) (by decide) (by decide)

/-- Claim C10: `decodeSolanaPaymentResponse` is total — for every input
string it either decodes canonical base64 and returns the result of JSON
parsing, or returns `none` (the model of returning `null` from the
`catch` block); it never propagates a failure. -/
theorem decode_payment_response_total (h : String) :
    (∃ bytes, b64decodeList h.toList = some bytes ∧
        decodeSolanaPaymentResponse h = jsonParse (bytes.map Char.ofNat)) ∨
      (b64decodeList h.toList = none ∧ decodeSolanaPaymentResponse h = none) := by
  unfold decodeSolanaPaymentResponse
  rcases hb : b64decodeList h.toList with _ | bytes
  · right
    exact ⟨rfl, rfl⟩
  · left
    exact ⟨bytes, rfl, rfl⟩
